import Mathlib

/-!
Shallow embedding of the optimization core of the EV hub optimization
repository (`src/optimization.py`): the weighted k-means optimizer, the
population-weighted baseline generator with its polygon rejection
sampler, the coverage evaluator and the A/B simulation harness.

Conventions of the embedding:
* machine floats become exact rationals; where a float peculiarity
  (NaN/inf from division by zero) feeds a visible branch, the model
  reproduces the branch outcome and says so in the doc comment;
* the seeded pseudo-random engines (`random.Random(seed)`,
  `np.random.default_rng(seed)`) become deterministic streams of
  rational draws in `[0,1)` keyed by the seed — the claims depend only
  on seed-determinism and the range of the draws, not on the exact
  generator;
* geometry computed by the GEOS kernel through shapely/geopandas is
  embedded directly when elementary (bounds, shoelace area, centroid,
  strict point-in-polygon) and kept as an explicit functional parameter
  where the claims only concern how its results are aggregated
  (the buffer/intersection/area pipeline of the coverage evaluator);
* fallible code returns `Except String`.
-/

/-- A planar point, a pair of rational coordinates. -/
abbrev Pt := ℚ × ℚ

/-- A polygon given by the vertex list of its exterior ring; the ring is
closed implicitly (last vertex joined back to the first), mirroring a
shapely polygon. -/
abbrev Polygon := List Pt

/-- Model of shapely `polygon.bounds` (`optimization.py` line 116): the
tuple (minx, miny, maxx, maxy) over the vertices ((0,0,0,0) for an empty
ring). -/
def polyBounds (poly : Polygon) : ℚ × ℚ × ℚ × ℚ :=
  match poly with
  | [] => (0, 0, 0, 0)
  | v :: vs =>
    vs.foldl
      (fun b p => (min b.1 p.1, min b.2.1 p.2, max b.2.2.1 p.1, max b.2.2.2 p.2))
      (v.1, v.2, v.1, v.2)

/-- The directed edges of the polygon's ring: consecutive vertex pairs,
with the last vertex joined back to the first. -/
def polyEdges (poly : Polygon) : List (Pt × Pt) :=
  poly.zip (poly.drop 1 ++ poly.take 1)

/-- Cross product of the vectors (b - a) and (p - a). -/
def cross2 (a b p : Pt) : ℚ :=
  (b.1 - a.1) * (p.2 - a.2) - (b.2 - a.2) * (p.1 - a.1)

/-- Whether `p` lies on the closed segment from `a` to `b`. -/
def onSeg (a b p : Pt) : Bool :=
  decide (cross2 a b p = 0 ∧ min a.1 b.1 ≤ p.1 ∧ p.1 ≤ max a.1 b.1 ∧
    min a.2 b.2 ≤ p.2 ∧ p.2 ≤ max a.2 b.2)

/-- Whether `p` lies on the boundary of `poly`, i.e. on one of its
edges. -/
def onBoundary (poly : Polygon) (p : Pt) : Bool :=
  (polyEdges poly).any (fun e => onSeg e.1 e.2 p)

/-- Even-odd ray-casting test: parity of the crossings between the
polygon's edges and the horizontal ray going right from `p`. -/
def raycastOdd (poly : Polygon) (p : Pt) : Bool :=
  (polyEdges poly).foldl
    (fun acc e =>
      if ((e.1.2 ≤ p.2 ∧ p.2 < e.2.2) ∨ (e.2.2 ≤ p.2 ∧ p.2 < e.1.2)) ∧
          p.1 < e.1.1 + (e.2.1 - e.1.1) * (p.2 - e.1.2) / (e.2.2 - e.1.2)
      then !acc else acc)
    false

/-- Model of shapely `polygon.contains(point)`, the acceptance test at
`optimization.py` line 125: true exactly when the point lies strictly in
the polygon's interior. Shapely's containment predicate is strict — a
point on the boundary is NOT contained (the boundary-inclusive variant
would be `covers`, which the source does not use). -/
def shapelyContains (poly : Polygon) (p : Pt) : Bool :=
  !onBoundary poly p && raycastOdd poly p

/-- Twice the signed (shoelace) area of the polygon's ring. -/
def signedArea2 (poly : Polygon) : ℚ :=
  ((polyEdges poly).map (fun e => e.1.1 * e.2.2 - e.2.1 * e.1.2)).sum

/-- Model of shapely `.area` (`optimization.py` line 212): the absolute
shoelace area of the ring. -/
def polyArea (poly : Polygon) : ℚ := |signedArea2 poly| / 2

/-- Model of shapely `polygon.centroid` (`optimization.py` line 129):
the area-weighted centroid of the ring; for a degenerate ring of zero
signed area (where shapely falls back to lower-dimensional centroids)
the plain vertex average is used. -/
def polygonCentroid (poly : Polygon) : Pt :=
  let a2 := signedArea2 poly
  if a2 = 0 then
    ((poly.map Prod.fst).sum / (poly.length : ℚ),
     (poly.map Prod.snd).sum / (poly.length : ℚ))
  else
    (((polyEdges poly).map
        (fun e => (e.1.1 + e.2.1) * (e.1.1 * e.2.2 - e.2.1 * e.1.2))).sum / (3 * a2),
     ((polyEdges poly).map
        (fun e => (e.1.2 + e.2.2) * (e.1.1 * e.2.2 - e.2.1 * e.1.2))).sum / (3 * a2))

/-- One step of a linear congruential generator, the deterministic model
of the pseudo-random engines: every claim depends only on the stream of
draws being a fixed function of the seed, not on the concrete
generator. -/
def lcgNext (s : ℕ) : ℕ := (1664525 * s + 1013904223) % 4294967296

/-- Deterministic model of the stream of `random()` draws in `[0,1)`
made by the `random.Random(seed)` instance created at `optimization.py`
line 156: draw number `n` of the generator seeded with `seed`. -/
def pyStream (seed n : ℕ) : ℚ := (lcgNext^[n + 1] (2 * seed + 1) : ℕ) / 4294967296

/-- Deterministic model of the stream of uniform `[0,1)` draws made by
the `np.random.default_rng(seed)` generator created at `optimization.py`
line 155. -/
def npStream (seed n : ℕ) : ℚ := (lcgNext^[n + 1] (3 * seed + 7) : ℕ) / 4294967296

/-- Model of Python `random.uniform(a, b)` given the underlying
`random()` draw `u`: `a + (b - a) * u`. -/
def pyUniform (a b u : ℚ) : ℚ := a + (b - a) * u

/-- The candidate point of attempt `n` of `random_point_in_polygon`
(`optimization.py` lines 119-123): x uniform in [minx, maxx] from draw
2n of the `py_rng` stream `s`, y uniform in [miny, maxy] from draw
2n+1. -/
def attemptPoint (poly : Polygon) (s : ℕ → ℚ) (n : ℕ) : Pt :=
  let b := polyBounds poly
  (pyUniform b.1 b.2.2.1 (s (2 * n)), pyUniform b.2.1 b.2.2.2 (s (2 * n + 1)))

/-- The rejection loop of `random_point_in_polygon` (`optimization.py`
lines 119-126): with `fuel` attempts left starting at attempt index `n`,
the index of the first attempt whose candidate point the polygon
strictly contains, if any. -/
def rpipFind (poly : Polygon) (s : ℕ → ℚ) : ℕ → ℕ → Option ℕ
  | 0, _ => none
  | fuel + 1, n =>
    if shapelyContains poly (attemptPoint poly s n) then some n
    else rpipFind poly s fuel (n + 1)

/-- Embedding of `random_point_in_polygon` (`optimization.py` lines
96-130): up to 1000 rejection-sampling attempts in the polygon's
bounding box, the first strictly contained candidate returned as
(lat, lng) = (y, x); on exhaustion the polygon's centroid, also
(lat, lng). `s` is the stream of `random()` draws of the `py_rng`
argument. -/
def random_point_in_polygon (poly : Polygon) (s : ℕ → ℚ) : Pt :=
  match rpipFind poly s 1000 0 with
  | some n => ((attemptPoint poly s n).2, (attemptPoint poly s n).1)
  | none => ((polygonCentroid poly).2, (polygonCentroid poly).1)

/-- Number of `random()` draws a `random_point_in_polygon` call consumes
from the shared `py_rng`: two per attempt made. -/
def rpipConsumed (poly : Polygon) (s : ℕ → ℚ) : ℕ :=
  match rpipFind poly s 1000 0 with
  | some n => 2 * (n + 1)
  | none => 2000

/-- The optional numeric weight columns of the zone table read by the
optimization module (`config.py`: Demand_Score, Total_Vehicles,
Unmet_Demand). -/
inductive Col where
  | demand_score
  | total_vehicles
  | unmet_demand
  deriving DecidableEq

/-- One row of the zone GeoDataFrame. Cells of the numeric weight
columns are `Option ℚ`, `none` modelling a missing (NaN) cell; `lat` and
`lng` are the precomputed centroid columns read by
`generate_smart_locations`. -/
structure Barrio where
  geometry : Polygon
  lat : ℚ
  lng : ℚ
  demand_score : Option ℚ
  total_vehicles : Option ℚ
  unmet_demand : Option ℚ
  deriving DecidableEq, Inhabited

/-- The zone GeoDataFrame: its rows plus the list of optional weight
columns actually present in the table. -/
structure GeoDataFrame where
  rows : List Barrio
  cols : List Col
  deriving DecidableEq

/-- Cell of row `b` in column `c`. -/
def getCol (b : Barrio) : Col → Option ℚ
  | .demand_score => b.demand_score
  | .total_vehicles => b.total_vehicles
  | .unmet_demand => b.unmet_demand

/-- Model of pandas `.fillna(0)` on one cell. -/
def fillna0 (v : Option ℚ) : ℚ := v.getD 0

/-- The values of column `c` after `.fillna(0)` (`optimization.py`
line 159 resp. line 84). -/
def colValues (gdf : GeoDataFrame) (c : Col) : List ℚ :=
  gdf.rows.map (fun b => fillna0 (getCol b c))

/-- Squared Euclidean distance between two points. -/
def dist2 (p q : Pt) : ℚ := (p.1 - q.1) ^ 2 + (p.2 - q.2) ^ 2

/-- Index of the center nearest to `p` (the first one in case of
ties). -/
def nearestIdx (cs : List Pt) (p : Pt) : ℕ :=
  (cs.enum.foldl
    (fun best c => if dist2 c.2 p < best.2 then (c.1, dist2 c.2 p) else best)
    (0, dist2 (cs.headD (0, 0)) p)).1

/-- One Lloyd iteration of weighted k-means: assign each point to its
nearest center, then move every center to the weight-weighted mean of
its assigned points (a center whose cluster carries no weight keeps its
position, modelling an implementation-defined empty-cluster rule). -/
def lloydStep (pts : List Pt) (ws : List ℚ) (cs : List Pt) : List Pt :=
  (List.range cs.length).map (fun j =>
    let assigned := (pts.zip ws).filter (fun pw => nearestIdx cs pw.1 == j)
    let w := (assigned.map (fun pw => pw.2)).sum
    if w = 0 then cs.getD j (0, 0)
    else ((assigned.map (fun pw => pw.2 * pw.1.1)).sum / w,
          (assigned.map (fun pw => pw.2 * pw.1.2)).sum / w))

/-- Model of `sklearn.cluster.KMeans(n_clusters, ...).fit(X,
sample_weight)` followed by reading `cluster_centers_` (`optimization.py`
lines 50-57): sklearn validates that `n_clusters` is at least 1, that
the number of samples is at least `n_clusters`, and that `sample_weight`
has one entry per sample, raising a `ValueError` otherwise; the
iterative refinement is modelled by ten Lloyd iterations from a
deterministic initialization (the first `n_clusters` input points).
Everything the claims rely on is preserved: the fit either fails one of
the validations or returns exactly `n_clusters` centers,
deterministically for a fixed seed. -/
def kmeansFit (n_clusters : ℕ) (pts : List Pt) (ws : List ℚ) :
    Except String (List Pt) :=
  if n_clusters < 1 then .error "n_clusters must be at least 1"
  else if pts.length < n_clusters then .error "n_samples should be at least n_clusters"
  else if ws.length ≠ pts.length then .error "sample_weight shape mismatch"
  else .ok ((lloydStep pts ws)^[10] (pts.take n_clusters))

/-- The weight sanitization of `weighted_kmeans_optimization`
(`optimization.py` lines 43-47): clamp negative weights to zero
(`np.maximum(weights, 0)`), and fall back to uniform weight 1
(`np.ones_like`) when the clamped weights sum to zero. -/
def sanitizeWeights (w : List ℚ) : List ℚ :=
  let c := w.map (fun x => max x 0)
  if c.sum = 0 then List.replicate w.length 1 else c

/-- Embedding of `weighted_kmeans_optimization` (`optimization.py` lines
19-57): clamp the cluster count to the number of points, sanitize the
weights, fit the weighted k-means and return the cluster centers. -/
def weighted_kmeans_optimization (coordinates : List Pt) (weights : List ℚ)
    (n_clusters : ℕ) : Except String (List Pt) :=
  kmeansFit (min n_clusters coordinates.length) coordinates (sanitizeWeights weights)

/-- Embedding of `generate_smart_locations` (`optimization.py` lines
60-93): cluster the (lat, lng) centroid columns weighted by the chosen
demand column after `.fillna(0)`; reading a column absent from the table
raises a pandas `KeyError`. -/
def generate_smart_locations (gdf : GeoDataFrame) (n_hubs : ℕ)
    (weight_column : Col) : Except String (List Pt) :=
  if weight_column ∈ gdf.cols then
    weighted_kmeans_optimization (gdf.rows.map (fun b => (b.lat, b.lng)))
      (colValues gdf weight_column) n_hubs
  else .error "KeyError"

/-- Inverse-CDF lookup with running index `i`: the first index whose
cumulative probability exceeds the remaining mass `u`. -/
def cdfPickAux : List ℚ → ℚ → ℕ → ℕ
  | [], _, i => i
  | q :: rest, u, i => if u < q then i else cdfPickAux rest (u - q) (i + 1)

/-- Index drawn by numpy's inverse-CDF lookup for one uniform draw
`u`. -/
def cdfPick (p : List ℚ) (u : ℚ) : ℕ := cdfPickAux p u 0

/-- Model of `rng.choice(a, size, replace=True, p)` (`optimization.py`
lines 165-170) for `a` the table index `0 .. n-1`: numpy validates the
probability vector — same length as `a`, no negative entry, total
exactly 1 (up to float rounding; exact here) — and raises a `ValueError`
otherwise (a vector containing NaN likewise fails validation); each of
the `size` draws then picks an index by inverse-CDF lookup on one
uniform draw of the seeded generator. -/
def np_choice (n size : ℕ) (p : List ℚ) (s : ℕ → ℚ) :
    Except String (List ℕ) :=
  if p.length ≠ n then .error "a and p must have same size"
  else if p.any (fun q => decide (q < 0)) then .error "probabilities are not non-negative"
  else if p.sum ≠ 1 then .error "probabilities do not sum to 1"
  else .ok ((List.range size).map (fun i => cdfPick p (s i)))

/-- The normalized weight vector `weights / weights.sum()` built at
`optimization.py` line 162 — no clamping of negative values. In
rationals, division by a zero total yields the all-zero vector, which
numpy's validation rejects exactly as it rejects the NaN vector that the
float division produces. -/
def normalizedWeights (gdf : GeoDataFrame) (c : Col) : List ℚ :=
  (colValues gdf c).map (fun x => x / (colValues gdf c).sum)

/-- The location loop of `generate_population_weighted_locations`
(`optimization.py` lines 173-177): one `random_point_in_polygon` call
per sampled polygon, the single shared `py_rng` stream threaded through
by the number of draws each call consumes. -/
def genPoints : List Polygon → (ℕ → ℚ) → List Pt
  | [], _ => []
  | poly :: rest, s =>
    random_point_in_polygon poly s ::
      genPoints rest (fun n => s (n + rpipConsumed poly s))

/-- Embedding of `generate_population_weighted_locations`
(`optimization.py` lines 133-179): seed the two generators from `seed`,
normalize the `.fillna(0)` weight column into a probability vector,
sample `n_hubs` zone indices with `rng.choice`, and draw one point
inside each sampled zone's polygon; reading a column absent from the
table raises a pandas `KeyError`. -/
def generate_population_weighted_locations (gdf : GeoDataFrame) (n_hubs : ℕ)
    (weight_column : Col) (seed : ℕ) : Except String (List Pt) :=
  if weight_column ∈ gdf.cols then
    match np_choice gdf.rows.length n_hubs (normalizedWeights gdf weight_column)
        (npStream seed) with
    | .error e => .error e
    | .ok idxs =>
      .ok (genPoints (idxs.map (fun i => (gdf.rows.getD i default).geometry))
            (pyStream seed))
  else .error "KeyError"

/-- Clipping to the unit interval, pandas `.clip(0, 1)`. -/
def clip01 (q : ℚ) : ℚ := max 0 (min 1 q)

/-- Model of the pandas expression
`(intersection_areas / barrio_areas).fillna(0).clip(0, 1)`
(`optimization.py` line 232) at one zone: float division by a zero area
yields NaN when the intersection area is 0 (mapped to 0 by `fillna`) and
±inf otherwise (clipped to 1 resp. 0); a nonzero area gives the plain
ratio clipped to [0, 1]. -/
def covFrac (inter area : ℚ) : ℚ :=
  if area = 0 then (if 0 < inter then 1 else 0)
  else clip01 (inter / area)

/-- The hub-disk intersection-area primitive: given a zone polygon, a
hub point in the planar frame and the radius, the area of the
intersection between the zone and the hub's disk. The source computes it
with the GEOS kernel (`buffer`, `intersection`, `.area`,
`optimization.py` lines 222-229) on geometries reprojected to the metric
CRS; the embedding keeps it as an explicit functional parameter, since
every claim concerns how the evaluator aggregates these areas, not the
geometry kernel itself. -/
abbrev InterArea := Polygon → Pt → ℚ → ℚ

/-- Hub (lat, lng) rows converted to planar (x, y) points, as
`gpd.points_from_xy(hub_locations[:, 1], hub_locations[:, 0])` does at
`optimization.py` line 216. -/
def hubXY (h : Pt) : Pt := (h.2, h.1)

/-- The `max_coverage` vector of `evaluate_coverage` (`optimization.py`
lines 225-235): start from zeros and fold, over the hub buffers, the
elementwise maximum with each hub's clipped per-zone coverage
fractions. -/
def maxCoverage (ia : InterArea) (hubs : List Pt) (gdf : GeoDataFrame)
    (r : ℚ) : List ℚ :=
  hubs.foldl
    (fun acc h =>
      List.zipWith max acc
        (gdf.rows.map (fun b => covFrac (ia b.geometry (hubXY h) r) (polyArea b.geometry))))
    (List.replicate gdf.rows.length 0)

/-- The weighted-coverage metric of `evaluate_coverage`
(`optimization.py` lines 241-255):
`(column * max_coverage).sum() / column.sum() * 100` when the column
total is positive, else 0 (pandas sums skip NaN cells, i.e. they sum the
`.fillna(0)` values). -/
def weightedCoveragePct (cells cov : List ℚ) : ℚ :=
  if 0 < cells.sum then (List.zipWith (fun w c => w * c) cells cov).sum / cells.sum * 100
  else 0

/-- The metric dictionary returned by `evaluate_coverage`
(`optimization.py` lines 257-262). -/
structure CoverageReport where
  covered_neighborhoods : ℕ
  avg_coverage : ℚ
  demand_covered : ℚ
  population_covered : ℚ
  deriving DecidableEq

/-- Embedding of `evaluate_coverage` (`optimization.py` lines 182-262)
over the intersection-area primitive `ia`; zone polygons and hub points
are taken in the planar metric frame (the CRS reprojection is a pyproj
call on the way in). Metrics: count of zones with more than half their
area covered, mean coverage as a percentage (an empty table gives 0
where numpy's mean of an empty array is NaN), and the demand- and
vehicle-weighted coverage percentages, each 0 when its column is absent
from the table. -/
def evaluate_coverage (ia : InterArea) (hubs : List Pt) (gdf : GeoDataFrame)
    (r : ℚ) : CoverageReport :=
  let mc := maxCoverage ia hubs gdf r
  { covered_neighborhoods := mc.countP (fun q => decide (1/2 < q))
    avg_coverage := mc.sum / (mc.length : ℚ) * 100
    demand_covered :=
      if Col.demand_score ∈ gdf.cols then
        weightedCoveragePct (colValues gdf Col.demand_score) mc
      else 0
    population_covered :=
      if Col.total_vehicles ∈ gdf.cols then
        weightedCoveragePct (colValues gdf Col.total_vehicles) mc
      else 0 }

/-- The improvement entry of `run_ab_simulation` (`optimization.py`
lines 314-318): relative improvement in percent when the averaged
baseline value is positive, and 0 otherwise. -/
def improvementPct (smart baseline : ℚ) : ℚ :=
  if 0 < baseline then (smart - baseline) / baseline * 100 else 0

/-- A coverage report with every metric rational, as produced by the
baseline averaging (`np.mean` turns the integer zone count into a
float). -/
structure ReportQ where
  covered_neighborhoods : ℚ
  avg_coverage : ℚ
  demand_covered : ℚ
  population_covered : ℚ
  deriving DecidableEq

/-- Mean of a list of rationals (`np.mean`). -/
def meanQ (l : List ℚ) : ℚ := l.sum / (l.length : ℚ)

/-- Elementwise mean of the baseline reports (`optimization.py` lines
304-308). -/
def meanReports (l : List CoverageReport) : ReportQ :=
  { covered_neighborhoods := meanQ (l.map (fun m => (m.covered_neighborhoods : ℚ)))
    avg_coverage := meanQ (l.map (fun m => m.avg_coverage))
    demand_covered := meanQ (l.map (fun m => m.demand_covered))
    population_covered := meanQ (l.map (fun m => m.population_covered)) }

/-- The per-hub-count entry of the A/B simulation result
(`optimization.py` lines 311-319). -/
structure ScenarioResult where
  smart : CoverageReport
  baseline : ReportQ
  improvement_pct : ReportQ
  deriving DecidableEq

/-- Embedding of `run_ab_simulation` (`optimization.py` lines 265-321):
for each hub count, one smart placement evaluated once, `n_iterations`
baseline placements with seeds `seed, seed+1, ...` evaluated and
averaged elementwise, and the four per-metric improvement percentages;
with zero iterations the source raises an `IndexError` at
`baseline_metrics_list[0]`. -/
def run_ab_simulation (ia : InterArea) (gdf : GeoDataFrame)
    (n_hubs_list : List ℕ) (n_iterations : ℕ) (seed : ℕ) (r : ℚ) :
    Except String (List (ℕ × ScenarioResult)) :=
  if n_iterations = 0 then .error "IndexError"
  else
    n_hubs_list.mapM (fun k => do
      let smart_locs ← generate_smart_locations gdf k Col.unmet_demand
      let smart := evaluate_coverage ia smart_locs gdf r
      let bms ← (List.range n_iterations).mapM (fun i => do
        let locs ← generate_population_weighted_locations gdf k
          Col.total_vehicles (seed + i)
        pure (evaluate_coverage ia locs gdf r))
      let avg := meanReports bms
      pure (k,
        { smart := smart
          baseline := avg
          improvement_pct :=
            { covered_neighborhoods :=
                improvementPct (smart.covered_neighborhoods : ℚ) avg.covered_neighborhoods
              avg_coverage := improvementPct smart.avg_coverage avg.avg_coverage
              demand_covered := improvementPct smart.demand_covered avg.demand_covered
              population_covered :=
                improvementPct smart.population_covered avg.population_covered } }))

/-! Concrete fixtures used by the counterexamples and witnesses. -/

/-- The unit square, a valid zone polygon. -/
def unitSquare : Polygon := [(0, 0), (1, 0), (1, 1), (0, 1)]

/-- A degenerate (zero-area) ring of three collinear vertices. -/
def degenPoly : Polygon := [(0, 0), (1, 0), (2, 0)]

/-- A zone with vehicle weight -1. -/
def bNeg : Barrio :=
  { geometry := unitSquare
    lat := 0
    lng := 0
    demand_score := none
    total_vehicles := some (-1)
    unmet_demand := none }

/-- A zone with vehicle weight 2. -/
def bPos : Barrio :=
  { geometry := unitSquare
    lat := 0
    lng := 0
    demand_score := none
    total_vehicles := some 2
    unmet_demand := none }

/-- A zone table whose vehicle weights are [-1, 0]: they contain a
negative value, yet normalize (dividing by the total -1) to the valid
probability vector [1, 0]. -/
def gdfNeg : GeoDataFrame :=
  { rows := [bNeg, { bPos with total_vehicles := some 0 }]
    cols := [Col.total_vehicles] }

/-- A zone table whose single vehicle weight is 0, so the weight column
sums to zero. -/
def gdfZeroW : GeoDataFrame :=
  { rows := [{ bPos with total_vehicles := some 0 }]
    cols := [Col.total_vehicles] }

/-- A zone table with vehicle weights [2, -1]: the normalized vector
[2, -1] has a negative entry. -/
def gdfNeg2 : GeoDataFrame :=
  { rows := [bPos, bNeg]
    cols := [Col.total_vehicles] }

/-- A zone table containing one zero-area zone and no optional
columns. -/
def gdfDegen : GeoDataFrame :=
  { rows := [{ bPos with geometry := degenPoly, total_vehicles := none }]
    cols := [] }

/-- A well-formed one-zone table with both weight columns present. -/
def gdfUnit : GeoDataFrame :=
  { rows := [{ geometry := unitSquare
               lat := 1/2
               lng := 1/2
               demand_score := some 3
               total_vehicles := some 5
               unmet_demand := some 4 }]
    cols := [Col.demand_score, Col.total_vehicles, Col.unmet_demand] }

/-- Intersection-area primitive that returns 0 everywhere (a hub disk
disjoint from every zone). -/
def iaZero : InterArea := fun _ _ _ => 0

/-- Intersection-area primitive that returns 1/2 everywhere. -/
def iaHalf : InterArea := fun _ _ _ => 1/2

/-- Whether an `Except` result is a success (the Python call returned
instead of raising). -/
def exceptIsOk : Except String (List Pt) → Bool
  | .ok _ => true
  | .error _ => false

/-! Helper lemmas. -/

/-- Clipping fixes 0. -/
lemma clip01_zero : clip01 0 = 0 := by
  simp [clip01]

/-- Clipping commutes with binary maximum. -/
lemma clip01_max (a b : ℚ) : clip01 (max a b) = max (clip01 a) (clip01 b) := by
  rcases le_total a b with h | h
  · rw [max_eq_right h, max_eq_right]
    unfold clip01
    exact max_le_max le_rfl (min_le_min le_rfl h)
  · rw [max_eq_left h, max_eq_left]
    unfold clip01
    exact max_le_max le_rfl (min_le_min le_rfl h)

/-- Folding a maximum over clipped values equals clipping the folded
maximum of the raw values. -/
lemma foldl_max_clip01 {α : Type} (f : α → ℚ) (l : List α) :
    ∀ a : ℚ, l.foldl (fun m h => max m (clip01 (f h))) (clip01 a) =
      clip01 (l.foldl (fun m h => max m (f h)) a) := by
  induction l with
  | nil => intro a; rfl
  | cons x xs ih =>
    intro a
    simp only [List.foldl_cons]
    rw [← clip01_max, ih]

/-- A list of nonnegative rationals with one positive member has a
positive sum. -/
lemma sum_pos_of_mem_pos (l : List ℚ) (h0 : ∀ x ∈ l, 0 ≤ x) (x : ℚ)
    (hx : x ∈ l) (hpos : 0 < x) : 0 < l.sum := by
  induction l with
  | nil => cases hx
  | cons y ys ih =>
    rw [List.sum_cons]
    rcases List.mem_cons.mp hx with h | h
    · subst h
      have : 0 ≤ ys.sum := List.sum_nonneg (fun z hz => h0 z (List.mem_cons_of_mem _ hz))
      linarith
    · have hy : 0 ≤ y := h0 y (List.mem_cons_self _ _)
      have := ih (fun z hz => h0 z (List.mem_cons_of_mem _ hz)) h
      linarith

/-- Sanitizing weights preserves their number. -/
lemma sanitizeWeights_length (w : List ℚ) : (sanitizeWeights w).length = w.length := by
  unfold sanitizeWeights
  by_cases h : (w.map (fun x => max x 0)).sum = 0 <;> simp [h]

/-- One Lloyd iteration keeps the number of centers. -/
lemma lloydStep_length (pts : List Pt) (ws : List ℚ) (cs : List Pt) :
    (lloydStep pts ws cs).length = cs.length := by
  unfold lloydStep
  simp

/-- Iterated Lloyd steps keep the number of centers. -/
lemma lloyd_iterate_length (pts : List Pt) (ws : List ℚ) (m : ℕ) (cs : List Pt) :
    ((lloydStep pts ws)^[m] cs).length = cs.length := by
  induction m generalizing cs with
  | zero => rfl
  | succ m ih =>
    rw [Function.iterate_succ_apply, ih, lloydStep_length]

/-- Entry `i` of the hub fold of the coverage evaluator, for any
accumulator of the right length: the fold of the elementwise maxima read
at one index. -/
lemma foldCov_getD (ia : InterArea) (rows : List Barrio) (r : ℚ) (i : ℕ)
    (hi : i < rows.length) :
    ∀ (hubs : List Pt) (acc : List ℚ), acc.length = rows.length →
      (hubs.foldl (fun acc h => List.zipWith max acc
          (rows.map (fun b => covFrac (ia b.geometry (hubXY h) r) (polyArea b.geometry)))) acc).getD i 0 =
      hubs.foldl (fun m h => max m (covFrac (ia (rows.getD i default).geometry (hubXY h) r)
          (polyArea (rows.getD i default).geometry))) (acc.getD i 0) := by
  intro hubs
  induction hubs with
  | nil => intro acc hlen; rfl
  | cons h hs ih =>
    intro acc hlen
    simp only [List.foldl_cons]
    have hlen2 : (List.zipWith max acc
        (rows.map (fun b => covFrac (ia b.geometry (hubXY h) r) (polyArea b.geometry)))).length = rows.length := by
      simp [hlen]
    rw [ih _ hlen2]
    congr 1
    have hia : i < acc.length := by rw [hlen]; exact hi
    have him : i < (rows.map (fun b => covFrac (ia b.geometry (hubXY h) r) (polyArea b.geometry))).length := by
      simpa using hi
    have hiz : i < (List.zipWith max acc
        (rows.map (fun b => covFrac (ia b.geometry (hubXY h) r) (polyArea b.geometry)))).length := by
      rw [hlen2]; exact hi
    rw [List.getD_eq_getElem _ _ hiz, List.getD_eq_getElem _ _ hia]
    rw [List.getElem_zipWith]
    congr 1
    rw [List.getElem_map]
    congr 1 <;> rw [List.getD_eq_getElem _ _ hi]

/-- The coverage the evaluator assigns to zone `i` is the fold, over the
hubs, of the maximum of the per-hub clipped coverage fractions, started
at 0. -/
lemma maxCoverage_getD (ia : InterArea) (hubs : List Pt) (gdf : GeoDataFrame)
    (r : ℚ) (i : ℕ) (hi : i < gdf.rows.length) :
    (maxCoverage ia hubs gdf r).getD i 0 =
      hubs.foldl (fun m h =>
        max m (covFrac (ia (gdf.rows.getD i default).geometry (hubXY h) r)
          (polyArea (gdf.rows.getD i default).geometry))) 0 := by
  unfold maxCoverage
  rw [foldCov_getD ia gdf.rows r i hi hubs _ (by simp)]
  congr 1
  rw [List.getD_eq_getElem _ _ (by simpa using hi), List.getElem_replicate]

/-- The rejection loop reports failure exactly when every attempt in its
window is rejected. -/
lemma rpipFind_none_iff (poly : Polygon) (s : ℕ → ℚ) :
    ∀ (fuel n : ℕ), rpipFind poly s fuel n = none ↔
      ∀ m, n ≤ m → m < n + fuel → shapelyContains poly (attemptPoint poly s m) = false := by
  intro fuel
  induction fuel with
  | zero =>
    intro n
    simp only [rpipFind]
    constructor
    · intro _ m h1 h2; omega
    · intro _; trivial
  | succ fuel ih =>
    intro n
    simp only [rpipFind]
    by_cases hc : shapelyContains poly (attemptPoint poly s n) = true
    · simp only [hc, if_true]
      constructor
      · intro h; cases h
      · intro h
        have := h n le_rfl (by omega)
        rw [hc] at this; cases this
    · have hcf : shapelyContains poly (attemptPoint poly s n) = false := by
        simpa using hc
      simp only [hcf, Bool.false_eq_true, if_false]
      rw [ih (n + 1)]
      constructor
      · intro h m h1 h2
        rcases Nat.eq_or_lt_of_le h1 with h3 | h3
        · subst h3; exact hcf
        · exact h m h3 (by omega)
      · intro h m h1 h2
        exact h m (by omega) (by omega)

/-- When the rejection loop succeeds, it returns the first accepted
attempt index of its window. -/
lemma rpipFind_some (poly : Polygon) (s : ℕ → ℚ) :
    ∀ (fuel n k : ℕ), rpipFind poly s fuel n = some k →
      n ≤ k ∧ k < n + fuel ∧ shapelyContains poly (attemptPoint poly s k) = true ∧
        ∀ m, n ≤ m → m < k → shapelyContains poly (attemptPoint poly s m) = false := by
  intro fuel
  induction fuel with
  | zero => intro n k h; cases h
  | succ fuel ih =>
    intro n k h
    by_cases hc : shapelyContains poly (attemptPoint poly s n) = true
    · simp only [rpipFind, hc, if_true] at h
      cases h
      refine ⟨le_rfl, by omega, hc, ?_⟩
      intro m h1 h2; omega
    · have hcf : shapelyContains poly (attemptPoint poly s n) = false := by simpa using hc
      simp only [rpipFind, hcf, Bool.false_eq_true, if_false] at h
      obtain ⟨h1, h2, h3, h4⟩ := ih (n + 1) k h
      refine ⟨by omega, by omega, h3, ?_⟩
      intro m hm1 hm2
      rcases Nat.eq_or_lt_of_le hm1 with h5 | h5
      · subst h5; exact hcf
      · exact h4 m (by omega) hm2

/-- A fold of maxima over values that are all 0 stays 0. -/
lemma foldl_max_zero {α : Type} (g : α → ℚ) (l : List α) (h : ∀ x ∈ l, g x = 0) :
    l.foldl (fun m x => max m (g x)) 0 = 0 := by
  induction l with
  | nil => rfl
  | cons x xs ih =>
    simp only [List.foldl_cons]
    rw [h x (List.mem_cons_self _ _), max_self]
    exact ih (fun y hy => h y (List.mem_cons_of_mem _ hy))

/-! Claim theorems. -/

/-- Claim C1: the coverage fraction the evaluator assigns to a zone with
nonzero area equals the maximum, over the hubs, of that zone's
single-hub intersection fraction (intersection area divided by zone
area), clipped to [0, 1]; coverage is never summed across hubs. The
maximum over the hubs is taken with the evaluator's starting value 0, so
it is defined (and 0) also for an empty hub set. -/
theorem maxCoverage_clipped_max (ia : InterArea) (hubs : List Pt)
    (gdf : GeoDataFrame) (r : ℚ) (i : ℕ) (hi : i < gdf.rows.length)
    (hA : polyArea (gdf.rows.getD i default).geometry ≠ 0) :
    (maxCoverage ia hubs gdf r).getD i 0 =
      clip01 ((hubs.map (fun h =>
        ia (gdf.rows.getD i default).geometry (hubXY h) r /
          polyArea (gdf.rows.getD i default).geometry)).foldl max 0) := by
  have hcov : ∀ h : Pt, covFrac (ia (gdf.rows.getD i default).geometry (hubXY h) r)
      (polyArea (gdf.rows.getD i default).geometry) =
      clip01 (ia (gdf.rows.getD i default).geometry (hubXY h) r /
        polyArea (gdf.rows.getD i default).geometry) := by
    intro h; unfold covFrac; rw [if_neg hA]
  rw [maxCoverage_getD ia hubs gdf r i hi]
  simp only [hcov]
  rw [List.foldl_map]
  conv_lhs => rw [← clip01_zero]
  exact foldl_max_clip01 _ hubs 0

/-- Witness for C1: the single-zone table `gdfUnit` with the constant
intersection primitive `iaHalf` instantiates the theorem at index 0. -/
theorem maxCoverage_clipped_max_witness :
    (0 < gdfUnit.rows.length ∧
      polyArea (gdfUnit.rows.getD 0 default).geometry ≠ 0) ∧
    (maxCoverage iaHalf [((0 : ℚ), (0 : ℚ))] gdfUnit 500).getD 0 0 =
      clip01 (([((0 : ℚ), (0 : ℚ))].map (fun h =>
        iaHalf (gdfUnit.rows.getD 0 default).geometry (hubXY h) 500 /
          polyArea (gdfUnit.rows.getD 0 default).geometry)).foldl max 0) :=
  ⟨⟨by norm_num [gdfUnit],
    by norm_num [gdfUnit, polyArea, signedArea2, polyEdges, unitSquare]⟩,
   maxCoverage_clipped_max iaHalf [((0 : ℚ), (0 : ℚ))] gdfUnit 500 0
     (by norm_num [gdfUnit])
     (by norm_num [gdfUnit, polyArea, signedArea2, polyEdges, unitSquare])⟩

/-- Claim C2, counterexample to the claim as stated: the claim says a
drawn point is accepted when it falls inside the polygon inclusive of
its boundary. With a draw stream that puts every candidate at the unit
square's boundary corner (0, 0), the claim predicts the first candidate
is returned, i.e. the result (0, 0); the code instead rejects every
candidate (shapely containment is strict) and falls back to the
centroid (1/2, 1/2). -/
theorem rpip_boundary_rejected :
    onBoundary unitSquare ((0 : ℚ), (0 : ℚ)) = true ∧
    attemptPoint unitSquare (fun _ => 0) 0 = (0, 0) ∧
    random_point_in_polygon unitSquare (fun _ => 0) = (1/2, 1/2) := by
  refine ⟨?_, ?_, ?_⟩
  · norm_num [onBoundary, polyEdges, unitSquare, onSeg, cross2]
  · norm_num [attemptPoint, polyBounds, unitSquare, pyUniform]
  · have hrej : ∀ m : ℕ,
        shapelyContains unitSquare (attemptPoint unitSquare (fun _ => 0) m) = false := by
      intro m
      have hpt : attemptPoint unitSquare (fun _ => 0) m = (0, 0) := by
        norm_num [attemptPoint, polyBounds, unitSquare, pyUniform]
      rw [hpt]
      norm_num [shapelyContains, onBoundary, polyEdges, unitSquare, onSeg, cross2]
    have hnone : rpipFind unitSquare (fun _ => 0) 1000 0 = none :=
      (rpipFind_none_iff unitSquare (fun _ => 0) 1000 0).mpr (fun m _ _ => hrej m)
    unfold random_point_in_polygon
    rw [hnone]
    norm_num [polygonCentroid, signedArea2, polyEdges, unitSquare]

/-- Claim C2, amended: `random_point_in_polygon` draws candidates in the
bounding box until one falls STRICTLY inside the polygon (boundary
points are rejected, per shapely containment), capped at 1000 attempts;
either some attempt below the cap is the first strictly contained one
and is returned as (lat, lng), or all 1000 are rejected and the
polygon's centroid is returned as (lat, lng) — so the function always
terminates with a pair. -/
theorem random_point_in_polygon_spec (poly : Polygon) (s : ℕ → ℚ) :
    ((∀ n < 1000, shapelyContains poly (attemptPoint poly s n) = false) ∧
      random_point_in_polygon poly s =
        ((polygonCentroid poly).2, (polygonCentroid poly).1)) ∨
    (∃ n < 1000, shapelyContains poly (attemptPoint poly s n) = true ∧
      (∀ m < n, shapelyContains poly (attemptPoint poly s m) = false) ∧
      random_point_in_polygon poly s =
        ((attemptPoint poly s n).2, (attemptPoint poly s n).1)) := by
  rcases hfind : rpipFind poly s 1000 0 with _ | k
  · left
    refine ⟨?_, ?_⟩
    · intro n hn
      exact (rpipFind_none_iff poly s 1000 0).mp hfind n (Nat.zero_le _) (by omega)
    · unfold random_point_in_polygon
      rw [hfind]
  · right
    obtain ⟨h1, h2, h3, h4⟩ := rpipFind_some poly s 1000 0 k hfind
    refine ⟨k, by omega, h3, fun m hm => h4 m (Nat.zero_le _) hm, ?_⟩
    unfold random_point_in_polygon
    rw [hfind]

/-- Closed instance of the amended C2 theorem at a concrete polygon and
draw stream. -/
theorem random_point_in_polygon_spec_witness :
    ((∀ n < 1000, shapelyContains unitSquare (attemptPoint unitSquare (pyStream 7) n) = false) ∧
      random_point_in_polygon unitSquare (pyStream 7) =
        ((polygonCentroid unitSquare).2, (polygonCentroid unitSquare).1)) ∨
    (∃ n < 1000, shapelyContains unitSquare (attemptPoint unitSquare (pyStream 7) n) = true ∧
      (∀ m < n, shapelyContains unitSquare (attemptPoint unitSquare (pyStream 7) m) = false) ∧
      random_point_in_polygon unitSquare (pyStream 7) =
        ((attemptPoint unitSquare (pyStream 7) n).2, (attemptPoint unitSquare (pyStream 7) n).1)) :=
  random_point_in_polygon_spec unitSquare (pyStream 7)

/-- Claim C3: when the chosen baseline weight column sums to zero, the
normalized vector is not a probability distribution and the sampler's
validation rejects it, so `generate_population_weighted_locations` fails
with an error instead of substituting a distribution or returning
locations. -/
theorem baseline_zero_weight_sum_errors (gdf : GeoDataFrame) (k : ℕ) (c : Col)
    (seed : ℕ) (hc : c ∈ gdf.cols) (h0 : (colValues gdf c).sum = 0) :
    ∃ e, generate_population_weighted_locations gdf k c seed = Except.error e := by
  refine ⟨"probabilities do not sum to 1", ?_⟩
  unfold generate_population_weighted_locations
  rw [if_pos hc]
  have hp : normalizedWeights gdf c = (colValues gdf c).map (fun _ => (0 : ℚ)) := by
    unfold normalizedWeights
    rw [h0]
    simp [div_zero]
  rw [hp]
  unfold np_choice
  rw [if_neg (by simp [colValues])]
  rw [if_neg (by simp)]
  rw [if_pos (by simp)]

/-- Witness for C3: the one-zone table with vehicle weight 0. -/
theorem baseline_zero_weight_sum_errors_witness :
    (Col.total_vehicles ∈ gdfZeroW.cols ∧
      (colValues gdfZeroW Col.total_vehicles).sum = 0) ∧
    ∃ e, generate_population_weighted_locations gdfZeroW 1 Col.total_vehicles 0 =
      Except.error e :=
  ⟨⟨by decide, by norm_num [colValues, gdfZeroW, bPos, getCol, fillna0]⟩,
   baseline_zero_weight_sum_errors gdfZeroW 1 Col.total_vehicles 0 (by decide)
     (by norm_num [colValues, gdfZeroW, bPos, getCol, fillna0])⟩

/-- Claim C4: the optimizer's weight handling — the sanitized weights
are all nonnegative; when every input weight is nonpositive (i.e. all
weights are zero after clamping) they are replaced by uniform weight 1
for every point; when some weight is positive the sanitization is
exactly the clamp of each negative weight to zero; and on such weights
the optimization proceeds without raising an error. -/
theorem weighted_kmeans_weight_sanitization (coordinates : List Pt)
    (weights : List ℚ) (k : ℕ) (hk : 1 ≤ k) (hN : 1 ≤ coordinates.length)
    (hlen : weights.length = coordinates.length) :
    (∀ x ∈ sanitizeWeights weights, 0 ≤ x) ∧
    ((∀ x ∈ weights, x ≤ 0) →
      sanitizeWeights weights = List.replicate weights.length 1) ∧
    ((∃ x ∈ weights, 0 < x) →
      sanitizeWeights weights = weights.map (fun x => max x 0)) ∧
    ∃ cs, weighted_kmeans_optimization coordinates weights k = Except.ok cs := by
  refine ⟨?_, ?_, ?_, ?_⟩
  · intro x hx
    unfold sanitizeWeights at hx
    by_cases h : (weights.map (fun x => max x 0)).sum = 0
    · rw [if_pos h] at hx
      rw [List.eq_of_mem_replicate hx]
      norm_num
    · rw [if_neg h] at hx
      obtain ⟨y, _, rfl⟩ := List.mem_map.mp hx
      exact le_max_right y 0
  · intro hall
    unfold sanitizeWeights
    rw [if_pos]
    apply List.sum_eq_zero
    intro x hx
    obtain ⟨y, hy, rfl⟩ := List.mem_map.mp hx
    exact max_eq_right (hall y hy)
  · intro ⟨x, hx, hpos⟩
    unfold sanitizeWeights
    rw [if_neg]
    apply ne_of_gt
    apply sum_pos_of_mem_pos _ _ (max x 0)
    · exact List.mem_map_of_mem _ hx
    · exact lt_of_lt_of_le hpos (le_max_left x 0)
    · intro z hz
      obtain ⟨y, _, rfl⟩ := List.mem_map.mp hz
      exact le_max_right y 0
  · have h1 : ¬(min k coordinates.length < 1) := by
      have := le_min hk hN
      omega
    have h2 : ¬(coordinates.length < min k coordinates.length) :=
      not_lt.mpr (min_le_right k coordinates.length)
    have h3 : ¬((sanitizeWeights weights).length ≠ coordinates.length) := by
      rw [sanitizeWeights_length, hlen]
      exact fun h => h rfl
    refine ⟨(lloydStep coordinates (sanitizeWeights weights))^[10]
      (coordinates.take (min k coordinates.length)), ?_⟩
    unfold weighted_kmeans_optimization kmeansFit
    rw [if_neg h1, if_neg h2, if_neg h3]

/-- Witness for C4: an all-negative weight vector on one point is
sanitized and optimized without error. -/
theorem weighted_kmeans_weight_sanitization_witness :
    (1 ≤ ([((0 : ℚ), (0 : ℚ))] : List Pt).length ∧
      ([(-1 : ℚ)]).length = ([((0 : ℚ), (0 : ℚ))] : List Pt).length) ∧
    ∃ cs, weighted_kmeans_optimization [((0 : ℚ), (0 : ℚ))] [(-1 : ℚ)] 1 =
      Except.ok cs :=
  ⟨⟨by norm_num, by norm_num⟩,
   (weighted_kmeans_weight_sanitization [((0 : ℚ), (0 : ℚ))] [(-1 : ℚ)] 1
     (le_refl 1) (by norm_num) (by norm_num)).2.2.2⟩

/-- Claim C5, counterexample to the claim as stated: the claim promises,
for N ≥ 1 points and EVERY requested cluster count, a return of
min(k, N) coordinate pairs with no error — but for the requested count
k = 0 on one point, sklearn validation rejects n_clusters = 0 and the
call raises instead of returning min(0, 1) = 0 pairs. -/
theorem weighted_kmeans_zero_clusters_errors :
    weighted_kmeans_optimization [((0 : ℚ), (0 : ℚ))] [(1 : ℚ)] 0 =
      Except.error "n_clusters must be at least 1" := rfl

/-- Claim C5, amended: for N ≥ 1 coordinate points and every requested
cluster count k ≥ 1 (with one weight per point), the optimizer clamps k
to N when k exceeds N and returns exactly min(k, N) coordinate pairs
without error. -/
theorem weighted_kmeans_clamped_length (coordinates : List Pt)
    (weights : List ℚ) (k : ℕ) (hk : 1 ≤ k) (hN : 1 ≤ coordinates.length)
    (hlen : weights.length = coordinates.length) :
    ∃ cs, weighted_kmeans_optimization coordinates weights k = Except.ok cs ∧
      cs.length = min k coordinates.length := by
  refine ⟨(lloydStep coordinates (sanitizeWeights weights))^[10]
    (coordinates.take (min k coordinates.length)), ?_, ?_⟩
  · have h1 : ¬(min k coordinates.length < 1) := by
      have := le_min hk hN
      omega
    have h2 : ¬(coordinates.length < min k coordinates.length) :=
      not_lt.mpr (min_le_right k coordinates.length)
    have h3 : ¬((sanitizeWeights weights).length ≠ coordinates.length) := by
      rw [sanitizeWeights_length, hlen]
      exact fun h => h rfl
    unfold weighted_kmeans_optimization kmeansFit
    rw [if_neg h1, if_neg h2, if_neg h3]
  · rw [lloyd_iterate_length, List.length_take]
    exact min_eq_left (min_le_right k coordinates.length)

/-- Witness for the amended C5: requesting 5 hubs from a single point
returns min(5, 1) = 1 center without error. -/
theorem weighted_kmeans_clamped_length_witness :
    ∃ cs, weighted_kmeans_optimization [((0 : ℚ), (0 : ℚ))] [(1 : ℚ)] 5 =
      Except.ok cs ∧ cs.length = min 5 ([((0 : ℚ), (0 : ℚ))] : List Pt).length :=
  weighted_kmeans_clamped_length [((0 : ℚ), (0 : ℚ))] [(1 : ℚ)] 5
    (by norm_num) (by norm_num) (by norm_num)

/-- Claim C6: the reported improvement percentage equals
(smart − baseline) / baseline × 100 for a nonzero (nonnegative, as every
averaged coverage metric is) baseline value, and is exactly 0 when the
baseline value is 0. -/
theorem improvementPct_spec (s b : ℚ) (hb : 0 ≤ b) :
    (b ≠ 0 → improvementPct s b = (s - b) / b * 100) ∧
    (b = 0 → improvementPct s b = 0) := by
  constructor
  · intro hne
    unfold improvementPct
    rw [if_pos (lt_of_le_of_ne hb (Ne.symm hne))]
  · intro h0
    unfold improvementPct
    rw [h0, if_neg (lt_irrefl 0)]

/-- Witness for C6 at smart 3, baseline 2. -/
theorem improvementPct_spec_witness :
    ((0 : ℚ) ≤ 2) ∧
    (((2 : ℚ) ≠ 0 → improvementPct 3 2 = (3 - 2) / 2 * 100) ∧
      ((2 : ℚ) = 0 → improvementPct 3 2 = 0)) :=
  ⟨by norm_num, improvementPct_spec 3 2 (by norm_num)⟩

/-- Claim C7: the baseline generator is deterministic — two calls with
the same zone table, hub count, weight column and seed return the same
coordinate sequence. In the embedding both pseudo-random generators are
constructed from the `seed` argument (`optimization.py` lines 155-156)
and no other state enters, so the function is a pure function of its
arguments. -/
theorem baseline_deterministic_same_seed (gdf : GeoDataFrame) (k : ℕ) (c : Col)
    (seed1 seed2 : ℕ) (h : seed1 = seed2) :
    generate_population_weighted_locations gdf k c seed1 =
      generate_population_weighted_locations gdf k c seed2 := by
  rw [h]

/-- Witness for C7 at seed 42 on a concrete table. -/
theorem baseline_deterministic_same_seed_witness :
    generate_population_weighted_locations gdfUnit 3 Col.total_vehicles 42 =
      generate_population_weighted_locations gdfUnit 3 Col.total_vehicles 42 :=
  baseline_deterministic_same_seed gdfUnit 3 Col.total_vehicles 42 42 rfl

/-- Claim C8, counterexample to the claim as stated: a zone table
containing a zero-area zone is evaluated without any error — the
evaluator returns a normal report and absorbs the degenerate zone into
the metrics (its coverage fraction becomes 0 through the
`fillna(0)`-modelled division), instead of failing fast with a
data-integrity error. -/
theorem evaluate_coverage_degenerate_no_error :
    polyArea degenPoly = 0 ∧
    evaluate_coverage iaZero [((0 : ℚ), (0 : ℚ))] gdfDegen 500 =
      { covered_neighborhoods := 0
        avg_coverage := 0
        demand_covered := 0
        population_covered := 0 } := by
  constructor
  · norm_num [polyArea, signedArea2, polyEdges, degenPoly]
  · norm_num [evaluate_coverage, maxCoverage, gdfDegen, bPos, iaZero, covFrac,
      polyArea, signedArea2, polyEdges, degenPoly, clip01, weightedCoveragePct,
      colValues, hubXY]

/-- Claim C8, amended: the core performs no geometry validation — a zone
whose polygon is degenerate (zero area, which also covers a missing or
empty ring) is silently absorbed: its coverage fraction is 0 (every
hub's intersection with it has nonpositive area, and the NaN of the
0/0 float division is mapped to 0 by `fillna`), it still counts in the
zone averages, and no error is raised. -/
theorem degenerate_zone_coverage_zero (ia : InterArea) (hubs : List Pt)
    (gdf : GeoDataFrame) (r : ℚ) (i : ℕ) (hi : i < gdf.rows.length)
    (hA : polyArea (gdf.rows.getD i default).geometry = 0)
    (hIa : ∀ h ∈ hubs, ia (gdf.rows.getD i default).geometry (hubXY h) r ≤ 0) :
    (maxCoverage ia hubs gdf r).getD i 0 = 0 := by
  rw [maxCoverage_getD ia hubs gdf r i hi]
  apply foldl_max_zero
  intro h hh
  unfold covFrac
  rw [if_pos hA, if_neg (not_lt.mpr (hIa h hh))]

/-- Witness for the amended C8 at the degenerate one-zone table. -/
theorem degenerate_zone_coverage_zero_witness :
    (0 < gdfDegen.rows.length ∧
      polyArea (gdfDegen.rows.getD 0 default).geometry = 0) ∧
    (maxCoverage iaZero [((0 : ℚ), (0 : ℚ))] gdfDegen 500).getD 0 0 = 0 :=
  ⟨⟨by norm_num [gdfDegen],
    by norm_num [gdfDegen, bPos, polyArea, signedArea2, polyEdges, degenPoly]⟩,
   degenerate_zone_coverage_zero iaZero [((0 : ℚ), (0 : ℚ))] gdfDegen 500 0
     (by norm_num [gdfDegen])
     (by norm_num [gdfDegen, bPos, polyArea, signedArea2, polyEdges, degenPoly])
     (fun h _ => by norm_num [iaZero])⟩

/-- Claim C9: a weight column missing from the table zeroes only its own
weighted-coverage metric — the count, average and the other weighted
metric keep their normal formulas, and a present column always yields
its normal formula. -/
theorem evaluate_coverage_missing_columns (ia : InterArea) (hubs : List Pt)
    (gdf : GeoDataFrame) (r : ℚ) :
    (Col.demand_score ∉ gdf.cols →
      (evaluate_coverage ia hubs gdf r).demand_covered = 0) ∧
    (Col.total_vehicles ∉ gdf.cols →
      (evaluate_coverage ia hubs gdf r).population_covered = 0) ∧
    (evaluate_coverage ia hubs gdf r).covered_neighborhoods =
      (maxCoverage ia hubs gdf r).countP (fun q => decide (1/2 < q)) ∧
    (evaluate_coverage ia hubs gdf r).avg_coverage =
      (maxCoverage ia hubs gdf r).sum / ((maxCoverage ia hubs gdf r).length : ℚ) * 100 ∧
    (Col.demand_score ∈ gdf.cols →
      (evaluate_coverage ia hubs gdf r).demand_covered =
        weightedCoveragePct (colValues gdf Col.demand_score) (maxCoverage ia hubs gdf r)) ∧
    (Col.total_vehicles ∈ gdf.cols →
      (evaluate_coverage ia hubs gdf r).population_covered =
        weightedCoveragePct (colValues gdf Col.total_vehicles) (maxCoverage ia hubs gdf r)) := by
  unfold evaluate_coverage
  refine ⟨fun h => by simp [if_neg h], fun h => by simp [if_neg h], rfl, rfl,
    fun h => by simp [if_pos h], fun h => by simp [if_pos h]⟩

/-- Closed instance for C9: on a table without the demand column, the
demand metric is 0. -/
theorem evaluate_coverage_missing_columns_witness :
    (Col.demand_score ∉ gdfDegen.cols) ∧
    (evaluate_coverage iaZero [((0 : ℚ), (0 : ℚ))] gdfDegen 500).demand_covered = 0 :=
  ⟨by decide,
   (evaluate_coverage_missing_columns iaZero [((0 : ℚ), (0 : ℚ))] gdfDegen 500).1
     (by decide)⟩

/-- Claim C10, counterexample to the claim as stated: the claim says the
baseline generator fails on EVERY table whose weight column contains a
negative value. On the table with vehicle weights [-1, 0] the negative
total -1 normalizes them to the valid probability vector [1, 0], the
sampler accepts it, and the call succeeds — no error is raised and the
normalized vector carries no negative entry. -/
theorem baseline_negative_weight_can_succeed :
    normalizedWeights gdfNeg Col.total_vehicles = [1, 0] ∧
    exceptIsOk (generate_population_weighted_locations gdfNeg 1 Col.total_vehicles 0) = true := by
  have hp : normalizedWeights gdfNeg Col.total_vehicles = [1, 0] := by
    norm_num [normalizedWeights, colValues, gdfNeg, bNeg, bPos, getCol, fillna0]
  refine ⟨hp, ?_⟩
  unfold generate_population_weighted_locations
  rw [if_pos (by decide)]
  have hchoice : np_choice gdfNeg.rows.length 1
      (normalizedWeights gdfNeg Col.total_vehicles) (npStream 0) = Except.ok [0] := by
    rw [hp]
    unfold np_choice
    rw [if_neg (by norm_num [gdfNeg]), if_neg (by norm_num), if_neg (by norm_num)]
    norm_num [cdfPick, cdfPickAux, npStream, lcgNext, List.range_succ,
      List.range_zero, Function.iterate_zero]
  rw [hchoice]
  rfl

/-- Claim C10, amended: the baseline generator never clamps negative
weights — the vector handed to the sampler is exactly
weights / sum(weights) — and whenever that normalized vector contains a
negative entry (in particular whenever a negative weight coexists with a
positive total) the sampler's validation rejects it and the function
fails; only weight columns whose negatives normalize away (an all-
nonpositive column with negative total) escape the failure. -/
theorem baseline_negative_probability_errors (gdf : GeoDataFrame) (k : ℕ)
    (c : Col) (seed : ℕ) (hc : c ∈ gdf.cols)
    (hneg : ∃ x ∈ normalizedWeights gdf c, x < 0) :
    generate_population_weighted_locations gdf k c seed =
      Except.error "probabilities are not non-negative" := by
  unfold generate_population_weighted_locations
  rw [if_pos hc]
  unfold np_choice
  rw [if_neg (by simp [normalizedWeights, colValues])]
  have hany : (normalizedWeights gdf c).any (fun q => decide (q < 0)) = true := by
    rw [List.any_eq_true]
    obtain ⟨x, hx, hlt⟩ := hneg
    exact ⟨x, hx, by simpa using hlt⟩
  rw [if_pos (by simp [hany])]

/-- Witness for the amended C10: vehicle weights [2, -1] normalize to
[2, -1], whose negative entry makes the call fail. -/
theorem baseline_negative_probability_errors_witness :
    (Col.total_vehicles ∈ gdfNeg2.cols ∧
      ∃ x ∈ normalizedWeights gdfNeg2 Col.total_vehicles, x < 0) ∧
    generate_population_weighted_locations gdfNeg2 1 Col.total_vehicles 0 =
      Except.error "probabilities are not non-negative" := by
  have hp : normalizedWeights gdfNeg2 Col.total_vehicles = [2, -1] := by
    norm_num [normalizedWeights, colValues, gdfNeg2, bPos, bNeg, getCol, fillna0]
  have hneg : ∃ x ∈ normalizedWeights gdfNeg2 Col.total_vehicles, x < 0 := by
    rw [hp]
    exact ⟨-1, by simp, by norm_num⟩
  exact ⟨⟨by decide, hneg⟩,
    baseline_negative_probability_errors gdfNeg2 1 Col.total_vehicles 0 (by decide) hneg⟩
